import Mathlib

/-!
Shallow embedding of `main.go` of the aws-ecr-image-scan-findings-prometheus-exporter
repository, together with theorems settling the claims about it.

The program has three parts:
  * `getECRImageScanFindings`: a paginated fetch from the ECR
    `DescribeImageScanFindings` API, flattening each raw finding's attribute
    list into a `findingsInfo` record via four function-scoped working
    variables;
  * `snapshot`: resets a Prometheus `GaugeVec` and republishes one gauge
    sample (value 1) per record;
  * `getInterval`: reads the poll interval from the `AWS_API_INTERVAL`
    environment variable, with `strconv.Atoi` parsing and a default of 300.

The embedding models the AWS service as a function from the optional
`NextToken` of a request to the response (a page of findings plus an optional
continuation token, or an error), and the Go `for {}` pagination loop with
explicit fuel (`none` = the loop has not terminated within the given fuel,
matching the unbounded loop of the source). The Prometheus `GaugeVec` is
modelled as an association list from label sets to gauge values; `With(..).Set`
is an upsert keyed by the label set, and `Reset` empties the vector.
-/

set_option autoImplicit false

deriving instance DecidableEq for Except

namespace ECRExporter

/-- One `ecr.Attribute` of a finding: the source dereferences `*attr.Key` and
`*attr.Value`, so both are modelled as plain strings. -/
structure Attr where
  key : String
  value : String
deriving DecidableEq

/-- One raw `ecr.ImageScanFinding`: `finding.Name` and `finding.Severity` are
read through `aws.StringValue`, which maps a nil pointer to `""`, so both are
modelled as plain strings (a nil pointer is the same as an empty string). -/
structure RawFinding where
  name : String
  severity : String
  attributes : List Attr
deriving DecidableEq

/-- One response of `DescribeImageScanFindings`: a page of findings plus the
optional continuation token `NextToken`. -/
structure Page where
  findings : List RawFinding
  nextToken : Option String
deriving DecidableEq

/-- The `findingsInfo` struct of `main.go` (lines 18-25). -/
structure findingsInfo where
  Name : String
  Severity : String
  PackageVersion : String
  PackageName : String
  CVSS2VECTOR : String
  CVSS2SCORE : String
deriving DecidableEq

/-- The four function-scoped working variables of `getECRImageScanFindings`
(`main.go` lines 114-119). They are declared once per call of the function and
are never re-initialized inside the loops. -/
structure WorkState where
  packageVersion : String
  packageName : String
  CVSS2VECTOR : String
  CVSS2SCORE : String
deriving DecidableEq

/-- The working variables at their declaration: Go zero values, i.e. `""`. -/
def initWork : WorkState := ⟨"", "", "", ""⟩

/-- The `switch *attr.Key` statement of the inner attribute loop
(`main.go` lines 130-139): each recognized key overwrites the corresponding
working variable; any other key leaves the state unchanged. -/
def applyAttr (st : WorkState) (a : Attr) : WorkState :=
  if a.key = "package_version" then { st with packageVersion := a.value }
  else if a.key = "package_name" then { st with packageName := a.value }
  else if a.key = "CVSS2_VECTOR" then { st with CVSS2VECTOR := a.value }
  else if a.key = "CVSS2_SCORE" then { st with CVSS2SCORE := a.value }
  else st

/-- The `for _, attr := range finding.Attributes` loop (`main.go` lines
129-140): a left fold of `applyAttr` over the attribute list. -/
def scanAttrs (st : WorkState) (attrs : List Attr) : WorkState :=
  attrs.foldl applyAttr st

/-- One iteration of the `for i, finding := range ...Findings` loop
(`main.go` lines 128-150): scan the attributes into the working variables,
then build the record. The source assigns `PackageName: packageVersion` and
`PackageVersion: packageName` (lines 144-145) - the field swap is embedded
exactly as written. -/
def buildOne (st : WorkState) (f : RawFinding) : WorkState × findingsInfo :=
  let st' := scanAttrs st f.attributes
  (st', { Name := f.name
          Severity := f.severity
          PackageVersion := st'.packageName
          PackageName := st'.packageVersion
          CVSS2VECTOR := st'.CVSS2VECTOR
          CVSS2SCORE := st'.CVSS2SCORE })

/-- The per-page record construction (`main.go` lines 127-150): the working
state is threaded through the findings of the page in order. -/
def buildPage (st : WorkState) : List RawFinding → WorkState × List findingsInfo
  | [] => (st, [])
  | f :: rest =>
    let p := buildOne st f
    let q := buildPage p.1 rest
    (q.1, p.2 :: q.2)

/-- Records built from a list of raw findings starting from the freshly
declared working variables: what one call of `getECRImageScanFindings`
computes from the concatenation of all its pages' findings. -/
def buildAll (fs : List RawFinding) : List findingsInfo :=
  (buildPage initWork fs).2

/-- A model of the AWS client: maps the `NextToken` attached to a request
(`none` on the first request, where the input carries no token) to the
response, which is either a page or a request error. -/
abbrev Service : Type := Option String → Except String Page

/-- The `for {}` pagination loop of `getECRImageScanFindings` (`main.go`
lines 121-159), with explicit fuel for the unbounded loop: `tok` is the
`NextToken` currently set on the input, `st` the working variables, `acc` the
`findingsInfos` accumulator. A request error aborts with the wrapped error
message of line 124 and discards the accumulator (the source returns `nil`).
A response without `NextToken` returns the accumulator extended by the last
page; otherwise the response's token is set on the input for the next
request. `none` means the loop did not terminate within `fuel` requests. -/
def fetchLoop (svc : Service) :
    Nat → Option String → WorkState → List findingsInfo →
    Option (Except String (List findingsInfo))
  | 0, _, _, _ => none
  | fuel + 1, tok, st, acc =>
    match svc tok with
    | .error e => some (.error ("failed to describe image scan findings: " ++ e))
    | .ok page =>
      let p := buildPage st page.findings
      let acc' := acc ++ p.2
      match page.nextToken with
      | none => some (.ok acc')
      | some t => fetchLoop svc fuel (some t) p.1 acc'

/-- `getECRImageScanFindings` (`main.go` lines 101-160): start with no token
on the input, zero-valued working variables and an empty accumulator. -/
def getECRImageScanFindings (svc : Service) (fuel : Nat) :
    Option (Except String (List findingsInfo)) :=
  fetchLoop svc fuel none initWork []

/-- `Serves svc tok pages`: starting from a request carrying token `tok`, the
service answers with the pages of `pages` in order, each response's
continuation token being attached to the next request, and exactly the last
page omitting the token. -/
inductive Serves (svc : Service) : Option String → List Page → Prop
  | last {tok : Option String} {pg : Page} :
      svc tok = .ok pg → pg.nextToken = none → Serves svc tok [pg]
  | cons {tok : Option String} {pg : Page} {t : String} {rest : List Page} :
      svc tok = .ok pg → pg.nextToken = some t → Serves svc (some t) rest →
      Serves svc tok (pg :: rest)

/-- `FailsAfter svc tok e n`: starting from a request carrying token `tok`,
the service answers `n` pages that all carry a continuation token (each
attached to the next request) and then answers the request with error `e`. -/
inductive FailsAfter (svc : Service) : Option String → String → Nat → Prop
  | here {tok : Option String} {e : String} :
      svc tok = .error e → FailsAfter svc tok e 0
  | step {tok : Option String} {pg : Page} {t : String} {e : String} {n : Nat} :
      svc tok = .ok pg → pg.nextToken = some t → FailsAfter svc (some t) e n →
      FailsAfter svc tok e (n + 1)

/-- The label set of one sample of the `findings` GaugeVec (`main.go`
line 35). -/
structure Labels where
  name : String
  severity : String
  package_version : String
  package_name : String
  CVSS2_VECTOR : String
  CVSS2_SCORE : String
deriving DecidableEq

/-- The `prometheus.Labels` map built in `snapshot` (`main.go` lines 72-79):
both the `package_version` and the `package_name` label are assigned
`findingsInfo.PackageName` (lines 75-76) - embedded exactly as written. -/
def labelsOf (fi : findingsInfo) : Labels :=
  { name := fi.Name
    severity := fi.Severity
    package_version := fi.PackageName
    package_name := fi.PackageName
    CVSS2_VECTOR := fi.CVSS2VECTOR
    CVSS2_SCORE := fi.CVSS2SCORE }

/-- The state of the `findings` GaugeVec: an association list from label sets
to gauge values, in insertion order (the value is the `float64` set by
`Set`; the program only ever sets `1`, modelled as `Nat`). -/
abbrev Registry : Type := List (Labels × Nat)

/-- `findings.With(labels).Set(v)`: an upsert keyed by the full label set -
if a child with this label set exists its value is overwritten, otherwise a
new child is appended. -/
def setGauge (reg : Registry) (l : Labels) (v : Nat) : Registry :=
  if l ∈ reg.map Prod.fst then
    reg.map (fun p => if p.1 = l then (p.1, v) else p)
  else
    reg ++ [(l, v)]

/-- The publishing loop of `snapshot` (`main.go` lines 71-81): one
`With(labels).Set(1)` per record, in order. -/
def publish (reg : Registry) (recs : List findingsInfo) : Registry :=
  recs.foldl (fun r fi => setGauge r (labelsOf fi) 1) reg

/-- `snapshot` (`main.go` lines 63-84) as a function of the registry state
before the cycle and of the outcome of `getECRImageScanFindings`:
`findings.Reset()` empties the vector first (line 64), *before* the fetch;
a fetch error is then wrapped and returned with the registry left as `Reset`
left it; on success every record is published into the emptied registry.
Returns the new registry state and the error returned by `snapshot`. -/
def snapshot (_prev : Registry) (fetched : Except String (List findingsInfo)) :
    Registry × Option String :=
  let cleared : Registry := []
  match fetched with
  | .error e =>
    (cleared, some ("failed to read ECR Image Scan Findings infos: " ++ e))
  | .ok recs => (publish cleared recs, none)

/-- The registry states a concurrent scraper can observe after each
individual registry operation of the publishing loop (each `With(..).Set(1)`
is atomic under the GaugeVec's internal lock, but the loop is not). -/
def publishStates (reg : Registry) : List findingsInfo → List Registry
  | [] => []
  | fi :: rest =>
    let reg' := setGauge reg (labelsOf fi) 1
    reg' :: publishStates reg' rest

/-- All registry states observable during one successful `snapshot` cycle,
with each registry operation (`Reset`, each `With(..).Set`) atomic: the state
before the cycle, the empty state after `Reset` (line 64, held during the
whole fetch), then the state after each `Set` of the publishing loop. -/
def snapshotTrace (prev : Registry) (recs : List findingsInfo) : List Registry :=
  prev :: ([] : Registry) :: publishStates [] recs

/-- Decimal digit value of a character, `none` for a non-digit. -/
def digitVal? (c : Char) : Option Nat :=
  if '0' ≤ c ∧ c ≤ '9' then some (c.toNat - 48) else none

/-- Value of a digit string, `none` when some character is not a digit
(an empty list yields `some 0`; callers reject the empty case first). -/
def parseNatDigits (cs : List Char) : Option Nat :=
  cs.foldl (fun acc c => acc.bind fun n => (digitVal? c).map fun d => n * 10 + d)
    (some 0)

/-- The quoting of the offending input in a `strconv.NumError` message
(escaping of non-printable characters is not modelled). -/
def goQuote (s : String) : String := "\"" ++ s ++ "\""

/-- Go's `strconv.Atoi` (the stdlib parser called by `getInterval`): an
optional leading `+` or `-` sign followed by one or more decimal digits;
anything else is an `invalid syntax` error, and a value outside the 64-bit
`int` range is a `value out of range` error. -/
def goAtoi (s : String) : Except String Int :=
  let err := fun (msg : String) =>
    Except.error ("strconv.Atoi: parsing " ++ goQuote s ++ ": " ++ msg)
  let signDigits : Bool × List Char :=
    match s.toList with
    | '-' :: rest => (true, rest)
    | '+' :: rest => (false, rest)
    | cs => (false, cs)
  if signDigits.2.isEmpty then err "invalid syntax"
  else
    match parseNatDigits signDigits.2 with
    | none => err "invalid syntax"
    | some n =>
      let v : Int := if signDigits.1 then -(n : Int) else (n : Int)
      if -(2 ^ 63) ≤ v ∧ v < 2 ^ 63 then .ok v else err "value out of range"

/-- `getInterval` (`main.go` lines 86-99) as a function of the value of the
`AWS_API_INTERVAL` environment variable (`os.Getenv` returns `""` when the
variable is unset, so unset and empty coincide): empty means the default 300;
otherwise the `strconv.Atoi` result, with an `Atoi` error wrapped as on
line 95. -/
def getInterval (env : String) : Except String Int :=
  if env.length = 0 then .ok 300
  else
    match goAtoi env with
    | .error e => .error ("failed to read Datadog Config: " ++ e)
    | .ok n => .ok n

/-- Outcome of process startup in `main` (lines 39-43): either the process
proceeds with the parsed interval, or `log.Fatal(err)` terminates it before
anything else starts. -/
inductive StartupResult where
  | started (interval : Int)
  | fatal (msg : String)
deriving DecidableEq

/-- `main` lines 40-43: a `getInterval` error is `log.Fatal`, so the process
does not start; otherwise it starts with the parsed interval. -/
def mainStartup (env : String) : StartupResult :=
  match getInterval env with
  | .error e => .fatal e
  | .ok n => .started n

/-- Two's-complement wrap to a signed 64-bit value. -/
def wrap64 (n : Int) : Int := (n + 2 ^ 63) % 2 ^ 64 - 2 ^ 63

/-- The duration `time.Duration(interval) * time.Second` of `main.go` line 50:
`interval` nanoseconds times `10^9`, in 64-bit two's-complement arithmetic
(`time.Duration` is an `int64` count of nanoseconds). -/
def durationOf (interval : Int) : Int := wrap64 (interval * 1000000000)

/-- Go's `time.NewTicker` (the stdlib collaborator called on `main.go`
line 50): documented to panic with `non-positive interval for NewTicker`
when the duration is not positive, and to start the ticker otherwise. -/
def newTicker (d : Int) : Except String Unit :=
  if d ≤ 0 then .error "non-positive interval for NewTicker" else .ok ()

/-- Construction of the refresh-loop ticker (`main.go` line 50) for a given
configured interval in seconds. -/
def tickerStart (interval : Int) : Except String Unit :=
  newTicker (durationOf interval)

/-- The value of the *last* attribute with key `k` in an attribute list:
because the attribute loop folds left and each match overwrites the working
variable, the last occurrence wins. Used to state properties of the scan. -/
def lastVal : List Attr → String → Option String
  | [], _ => none
  | a :: rest, k =>
    match lastVal rest k with
    | some v => some v
    | none => if a.key = k then some a.value else none

end ECRExporter


namespace ECRExporter

/-! ## Helper lemmas on the builder and the pagination loop -/

/-- Building records from a concatenation of finding lists threads the working
state through the first list into the second and concatenates the records:
the per-page processing of the source is equivalent to processing the
concatenation of all pages' findings in one pass. -/
theorem buildPage_append (st : WorkState) (xs ys : List RawFinding) :
    buildPage st (xs ++ ys) =
      ((buildPage (buildPage st xs).1 ys).1,
       (buildPage st xs).2 ++ (buildPage (buildPage st xs).1 ys).2) := by
  induction xs generalizing st with
  | nil => simp [buildPage]
  | cons f xs ih => simp [buildPage, ih]

/-- Unfolding of the pagination loop when the service answers the pages of
`pages` linked by their continuation tokens. -/
theorem fetchLoop_serves {svc : Service} {tok : Option String} {pages : List Page}
    (h : Serves svc tok pages) :
    ∀ (fuel : Nat) (st : WorkState) (acc : List findingsInfo),
      pages.length ≤ fuel →
      fetchLoop svc fuel tok st acc =
        some (.ok (acc ++ (buildPage st (pages.map Page.findings).flatten).2)) := by
  induction h with
  | @last tok pg hok hnone =>
    intro fuel st acc hf
    match fuel, hf with
    | fuel + 1, _ => simp [fetchLoop, hok, hnone]
  | @cons tok pg t rest hok htok _ ih =>
    intro fuel st acc hf
    match fuel, hf with
    | fuel + 1, hf =>
      have hrest : rest.length ≤ fuel := by
        simpa using Nat.lt_succ_iff.mp (Nat.lt_of_lt_of_le (by simp) hf)
      simp only [fetchLoop, hok, htok]
      rw [ih fuel _ _ hrest]
      simp [buildPage_append, List.append_assoc]

/-- Unfolding of the pagination loop when the service fails after `n` pages
that all carry continuation tokens. -/
theorem fetchLoop_fails {svc : Service} {tok : Option String} {e : String} {n : Nat}
    (h : FailsAfter svc tok e n) :
    ∀ (fuel : Nat) (st : WorkState) (acc : List findingsInfo),
      n < fuel →
      fetchLoop svc fuel tok st acc =
        some (.error ("failed to describe image scan findings: " ++ e)) := by
  induction h with
  | @here tok e herr =>
    intro fuel st acc hf
    match fuel, hf with
    | fuel + 1, _ => simp [fetchLoop, herr]
  | @step tok pg t e n hok htok _ ih =>
    intro fuel st acc hf
    match fuel, hf with
    | fuel + 1, hf =>
      simp only [fetchLoop, hok, htok]
      exact ih fuel _ _ (Nat.lt_of_succ_lt_succ hf)

end ECRExporter

namespace ECRExporter

/-! ## Claims C5 and C6: pagination and fetch errors -/

/-- Claim C5: for every sequence of upstream responses, the paginated fetch
continues issuing requests while each response carries a continuation cursor
(`Serves` requires each response's cursor to be attached to the next request)
and terminates exactly when one response omits the cursor (only the last page
of a `Serves` derivation omits it), returning the records built from the
concatenation of all pages' findings in order. -/
theorem claim_C5_pagination (svc : Service) (pages : List Page) (fuel : Nat)
    (h : Serves svc none pages) (hf : pages.length ≤ fuel) :
    getECRImageScanFindings svc fuel =
      some (.ok (buildAll (pages.map Page.findings).flatten)) := by
  simpa [getECRImageScanFindings, buildAll] using
    fetchLoop_serves h fuel initWork [] hf

/-- The two-page service of the end-to-end example of the specification:
page 1 holds `CVE-1` with `package_name`/`package_version` attributes and
cursor `tok1`; the request carrying `tok1` is answered with page 2, holding
the attribute-less `CVE-2` and no cursor. -/
def examplePage1 : Page :=
  ⟨[⟨"CVE-1", "HIGH", [⟨"package_name", "libfoo"⟩, ⟨"package_version", "1.2"⟩]⟩],
   some "tok1"⟩

/-- Second page of the example service: one finding, no continuation cursor. -/
def examplePage2 : Page := ⟨[⟨"CVE-2", "LOW", []⟩], none⟩

/-- The example service: answers the first request (no token) with
`examplePage1` and a request carrying `tok1` with `examplePage2`. -/
def exampleSvc : Service := fun tok =>
  match tok with
  | none => .ok examplePage1
  | some s => if s = "tok1" then .ok examplePage2 else .error "unexpected token"

/-- Witness for C5 at the example service: two pages, fuel 2. -/
theorem claim_C5_pagination_witness :
    getECRImageScanFindings exampleSvc 2 =
      some (.ok (buildAll ([examplePage1, examplePage2].map Page.findings).flatten)) :=
  claim_C5_pagination exampleSvc [examplePage1, examplePage2] 2
    (Serves.cons (t := "tok1") rfl rfl (Serves.last rfl rfl)) (by decide)

/-- Claim C6: if any page request returns an error, the whole fetch returns
the wrapped request error of `main.go` line 124; the error constructor
carries no findings list (the source returns `nil` findings), so no records
accumulated from earlier successful pages reach the caller. -/
theorem claim_C6_fetch_error (svc : Service) (e : String) (n fuel : Nat)
    (h : FailsAfter svc none e n) (hf : n < fuel) :
    getECRImageScanFindings svc fuel =
      some (.error ("failed to describe image scan findings: " ++ e)) :=
  fetchLoop_fails h fuel initWork [] hf

/-- A service whose first page succeeds (with a continuation cursor) and
whose second request fails. -/
def failingSvc : Service := fun tok =>
  match tok with
  | none => .ok ⟨[⟨"CVE-1", "HIGH", []⟩], some "tok1"⟩
  | some _ => .error "boom"

/-- Witness for C6 at `failingSvc`: the error of the second request is
surfaced even though the first page succeeded. -/
theorem claim_C6_fetch_error_witness :
    getECRImageScanFindings failingSvc 5 =
      some (.error ("failed to describe image scan findings: " ++ "boom")) :=
  claim_C6_fetch_error failingSvc "boom" 1 5
    (FailsAfter.step rfl rfl (FailsAfter.here rfl)) (by decide)

end ECRExporter

namespace ECRExporter

/-! ## Claim C7: the attribute-to-field swap in the builder -/

/-- After scanning an attribute list, the `packageVersion` working variable
holds the value of the last `package_version` attribute, or its prior value
when the list has none. -/
theorem scanAttrs_packageVersion (attrs : List Attr) (st : WorkState) :
    (scanAttrs st attrs).packageVersion =
      (lastVal attrs "package_version").getD st.packageVersion := by
  induction attrs generalizing st with
  | nil => simp [scanAttrs, lastVal]
  | cons a rest ih =>
    show (scanAttrs (applyAttr st a) rest).packageVersion = _
    rw [ih]
    cases h : lastVal rest "package_version" with
    | some v => simp [lastVal, h]
    | none =>
      simp only [lastVal, h]
      unfold applyAttr
      split_ifs <;> simp_all

/-- After scanning an attribute list, the `packageName` working variable
holds the value of the last `package_name` attribute, or its prior value
when the list has none. -/
theorem scanAttrs_packageName (attrs : List Attr) (st : WorkState) :
    (scanAttrs st attrs).packageName =
      (lastVal attrs "package_name").getD st.packageName := by
  induction attrs generalizing st with
  | nil => simp [scanAttrs, lastVal]
  | cons a rest ih =>
    show (scanAttrs (applyAttr st a) rest).packageName = _
    rw [ih]
    cases h : lastVal rest "package_name" with
    | some v => simp [lastVal, h]
    | none =>
      simp only [lastVal, h]
      unfold applyAttr
      split_ifs <;> simp_all

/-- Claim C7: for every raw finding carrying a `package_version` and/or a
`package_name` attribute, the builder assigns the `package_version`
attribute's value into the record's `PackageName` field and the
`package_name` attribute's value into the record's `PackageVersion` field
(`main.go` lines 144-145): the reference field swap is present. -/
theorem claim_C7_field_swap (st : WorkState) (f : RawFinding) :
    (∀ v, lastVal f.attributes "package_version" = some v →
      ((buildOne st f).2).PackageName = v) ∧
    (∀ w, lastVal f.attributes "package_name" = some w →
      ((buildOne st f).2).PackageVersion = w) := by
  constructor
  · intro v hv
    show (scanAttrs st f.attributes).packageVersion = v
    rw [scanAttrs_packageVersion, hv]
    rfl
  · intro w hw
    show (scanAttrs st f.attributes).packageName = w
    rw [scanAttrs_packageName, hw]
    rfl

/-- Witness for C7: a finding with `package_name = libfoo` and
`package_version = 1.2` yields `PackageName = 1.2` and
`PackageVersion = libfoo`. -/
theorem claim_C7_field_swap_witness :
    ((buildOne initWork ⟨"CVE-1", "HIGH",
      [⟨"package_name", "libfoo"⟩, ⟨"package_version", "1.2"⟩]⟩).2).PackageName = "1.2" ∧
    ((buildOne initWork ⟨"CVE-1", "HIGH",
      [⟨"package_name", "libfoo"⟩, ⟨"package_version", "1.2"⟩]⟩).2).PackageVersion = "libfoo" :=
  ⟨(claim_C7_field_swap initWork _).1 "1.2" (by decide),
   (claim_C7_field_swap initWork _).2 "libfoo" (by decide)⟩

end ECRExporter

namespace ECRExporter

/-! ## Claims C1 and C2: the missing per-finding reset and the label mapping -/

/-- Claim C1 (evaluation at the failing input): the four working variables
are declared once per fetch (`main.go` lines 114-119) and are never reset
between findings, so the attribute-less second finding inherits the first
finding's `package_version` value: its record's `PackageName` field (which
receives the `packageVersion` working variable) is `"1.2"`, where the claim
demands the empty string. -/
theorem claim_C1_missing_reset_eval :
    buildAll [⟨"CVE-1", "HIGH", [⟨"package_version", "1.2"⟩]⟩,
              ⟨"CVE-2", "LOW", []⟩] =
      [⟨"CVE-1", "HIGH", "", "1.2", "", ""⟩,
       ⟨"CVE-2", "LOW", "", "1.2", "", ""⟩] ∧
    ((buildAll [⟨"CVE-1", "HIGH", [⟨"package_version", "1.2"⟩]⟩,
                ⟨"CVE-2", "LOW", []⟩]).map findingsInfo.PackageName ≠ ["1.2", ""]) := by
  constructor
  · decide
  · decide

/-- Claim C2 (evaluation at the failing input): `snapshot` assigns
`findingsInfo.PackageName` to *both* the `package_version` and the
`package_name` label (`main.go` lines 75-76); for a record with
`PackageName = "1.2"` and `PackageVersion = "libfoo"` the `package_name`
label is `"1.2"`, not the `PackageVersion` value `"libfoo"` the claim
demands. -/
theorem claim_C2_label_eval :
    labelsOf ⟨"CVE-1", "HIGH", "libfoo", "1.2", "AV:N", "5.0"⟩ =
      ⟨"CVE-1", "HIGH", "1.2", "1.2", "AV:N", "5.0"⟩ ∧
    (labelsOf ⟨"CVE-1", "HIGH", "libfoo", "1.2", "AV:N", "5.0"⟩).package_name ≠
      (⟨"CVE-1", "HIGH", "libfoo", "1.2", "AV:N", "5.0"⟩ : findingsInfo).PackageVersion := by
  constructor
  · decide
  · decide

end ECRExporter

namespace ECRExporter

/-! ## Claims C3 and C4: registry state across a refresh cycle -/

/-- Counterexample to claim C3: with one previously published sample, a
cycle whose fetch fails does *not* leave the registry unchanged -
`findings.Reset()` runs before the fetch (`main.go` line 64), so the prior
sample set is already gone. -/
theorem claim_C3_cex :
    (snapshot [(⟨"CVE-1", "HIGH", "1.2", "1.2", "", ""⟩, 1)] (.error "boom")).1 ≠
      [(⟨"CVE-1", "HIGH", "1.2", "1.2", "", ""⟩, 1)] := by
  decide

/-- Claim C3 as amended: on a failed fetch the cycle returns the wrapped
error of `main.go` line 68 without publishing any new sample, but because
`Reset` precedes the fetch the registry is left *empty*, not in its prior
state. -/
theorem claim_C3_amended (prev : Registry) (e : String) :
    snapshot prev (.error e) =
      ([], some ("failed to read ECR Image Scan Findings infos: " ++ e)) :=
  rfl

/-- Registry states reachable inside the publishing loop are exactly the
results of publishing a nonempty prefix of the remaining records. -/
theorem publishStates_mem {recs : List findingsInfo} {reg st : Registry}
    (h : st ∈ publishStates reg recs) :
    ∃ k, 1 ≤ k ∧ k ≤ recs.length ∧ st = publish reg (recs.take k) := by
  induction recs generalizing reg with
  | nil => simp [publishStates] at h
  | cons fi rest ih =>
    simp only [publishStates, List.mem_cons] at h
    rcases h with h | h
    · exact ⟨1, le_refl 1, by simp, by simp [h, publish]⟩
    · obtain ⟨k, hk1, hk2, hst⟩ := ih h
      exact ⟨k + 1, by omega, by simp; omega, by simpa [publish] using hst⟩

/-- Counterexample to claim C4: during a refresh from one old sample to one
(different) new sample, the empty registry - the state left by `Reset` and
held for the whole duration of the fetch - is observable, and it is neither
the complete pre-refresh sample set nor the complete post-refresh sample
set. -/
theorem claim_C4_cex :
    ([] : Registry) ∈
      snapshotTrace [(⟨"CVE-0", "LOW", "", "", "", ""⟩, 1)]
        [⟨"CVE-1", "HIGH", "", "1.2", "", ""⟩] ∧
    ([] : Registry) ≠ [(⟨"CVE-0", "LOW", "", "", "", ""⟩, 1)] ∧
    ([] : Registry) ≠
      (snapshot [(⟨"CVE-0", "LOW", "", "", "", ""⟩, 1)]
        (.ok [⟨"CVE-1", "HIGH", "", "1.2", "", ""⟩])).1 := by
  refine ⟨?_, ?_, ?_⟩ <;> decide

/-- Claim C4 as amended: the clear-and-repopulate sequence is not atomic;
with each individual registry operation atomic, a concurrent scrape observes
either the pre-refresh sample set, or (after `Reset`) the samples of some
prefix of the new records - including the empty registry, for the whole
duration of the fetch. Stale and fresh samples never coexist, but partial
fresh states are observable. -/
theorem claim_C4_amended (prev : Registry) (recs : List findingsInfo)
    (st : Registry) (h : st ∈ snapshotTrace prev recs) :
    st = prev ∨ ∃ k, k ≤ recs.length ∧ st = publish [] (recs.take k) := by
  simp only [snapshotTrace, List.mem_cons] at h
  rcases h with h | h | h
  · exact Or.inl h
  · exact Or.inr ⟨0, Nat.zero_le _, by simp [h, publish]⟩
  · obtain ⟨k, _, hk2, hst⟩ := publishStates_mem h
    exact Or.inr ⟨k, hk2, hst⟩

/-- Witness for the amended C4: the empty mid-refresh state is the
0-record prefix of the new sample set. -/
theorem claim_C4_amended_witness :
    ([] : Registry) = [(⟨"CVE-0", "LOW", "", "", "", ""⟩, 1)] ∨
    ∃ k, k ≤ ([⟨"CVE-1", "HIGH", "", "1.2", "", ""⟩] : List findingsInfo).length ∧
      ([] : Registry) = publish []
        (([⟨"CVE-1", "HIGH", "", "1.2", "", ""⟩] : List findingsInfo).take k) :=
  claim_C4_amended [(⟨"CVE-0", "LOW", "", "", "", ""⟩, 1)]
    [⟨"CVE-1", "HIGH", "", "1.2", "", ""⟩] [] (by decide)

end ECRExporter

namespace ECRExporter

/-! ## Claim C8: correspondence between records and published samples -/

/-- Label sets present after a `Set`: unchanged when the label set already
has a child, extended by the new label set otherwise. -/
theorem setGauge_keys (reg : Registry) (l : Labels) (v : Nat) :
    (setGauge reg l v).map Prod.fst =
      if l ∈ reg.map Prod.fst then reg.map Prod.fst
      else reg.map Prod.fst ++ [l] := by
  unfold setGauge
  split_ifs with h
  · simp only [List.map_map]
    exact List.map_congr_left fun p _ => by by_cases hp : p.1 = l <;> simp [hp]
  · simp

/-- Membership of a label set after a `Set`. -/
theorem setGauge_mem_keys (reg : Registry) (l l' : Labels) (v : Nat) :
    l' ∈ (setGauge reg l v).map Prod.fst ↔ l' ∈ reg.map Prod.fst ∨ l' = l := by
  rw [setGauge_keys]
  split_ifs with h
  · constructor
    · exact Or.inl
    · rintro (h' | rfl)
      · exact h'
      · exact h
  · simp

/-- A `Set` to value `v` preserves "every child's value is `v`". -/
theorem setGauge_values {reg : Registry} {l : Labels} {v : Nat}
    (h : ∀ p ∈ reg, p.2 = v) : ∀ p ∈ setGauge reg l v, p.2 = v := by
  intro p hp
  unfold setGauge at hp
  split_ifs at hp with hmem
  · obtain ⟨q, hq, rfl⟩ := List.mem_map.mp hp
    by_cases hql : q.1 = l <;> simp [hql, h q hq]
  · rcases List.mem_append.mp hp with h' | h'
    · exact h p h'
    · simp_all

/-- A `Set` of a label set not yet present appends exactly one child. -/
theorem setGauge_length_of_not_mem {reg : Registry} {l : Labels} {v : Nat}
    (h : l ∉ reg.map Prod.fst) : (setGauge reg l v).length = reg.length + 1 := by
  unfold setGauge
  rw [if_neg h]
  simp

/-- The publishing loop never creates two children with the same label set. -/
theorem publish_keys_nodup (recs : List findingsInfo) :
    ∀ reg : Registry, ((reg.map Prod.fst).Nodup) →
      (((publish reg recs).map Prod.fst).Nodup) := by
  induction recs with
  | nil => intro reg h; exact h
  | cons fi rest ih =>
    intro reg h
    show (((publish (setGauge reg (labelsOf fi) 1) rest).map Prod.fst).Nodup)
    refine ih _ ?_
    rw [setGauge_keys]
    split_ifs with hmem
    · exact h
    · simp [List.nodup_append, h, hmem]

/-- Every child published by the loop has value 1. -/
theorem publish_values (recs : List findingsInfo) :
    ∀ reg : Registry, (∀ p ∈ reg, p.2 = 1) →
      ∀ p ∈ publish reg recs, p.2 = 1 := by
  induction recs with
  | nil => intro reg h; exact h
  | cons fi rest ih =>
    intro reg h
    exact ih _ (setGauge_values h)

/-- The label sets present after the publishing loop are those present
before plus those of the published records. -/
theorem publish_mem_keys (recs : List findingsInfo) :
    ∀ (reg : Registry) (l : Labels),
      l ∈ (publish reg recs).map Prod.fst ↔
        l ∈ reg.map Prod.fst ∨ l ∈ recs.map labelsOf := by
  induction recs with
  | nil => intro reg l; simp [publish]
  | cons fi rest ih =>
    intro reg l
    show l ∈ (publish (setGauge reg (labelsOf fi) 1) rest).map Prod.fst ↔ _
    rw [ih, setGauge_mem_keys]
    simp only [List.map_cons, List.mem_cons]
    tauto

/-- When the records' label sets are pairwise distinct and disjoint from the
children already present, the loop appends one child per record. -/
theorem publish_length (recs : List findingsInfo) :
    ∀ reg : Registry, (∀ fi ∈ recs, labelsOf fi ∉ reg.map Prod.fst) →
      ((recs.map labelsOf).Nodup) →
      (publish reg recs).length = reg.length + recs.length := by
  induction recs with
  | nil => intro reg _ _; rfl
  | cons fi rest ih =>
    intro reg hdisj hnd
    have hfi : labelsOf fi ∉ reg.map Prod.fst := hdisj fi (by simp)
    have hkeys : (setGauge reg (labelsOf fi) 1).map Prod.fst =
        reg.map Prod.fst ++ [labelsOf fi] := by
      rw [setGauge_keys, if_neg hfi]
    simp only [List.map_cons, List.nodup_cons] at hnd
    have : (publish (setGauge reg (labelsOf fi) 1) rest).length =
        (setGauge reg (labelsOf fi) 1).length + rest.length := by
      refine ih _ ?_ hnd.2
      intro g hg
      rw [hkeys]
      simp only [List.mem_append, List.mem_singleton]
      rintro (h' | h')
      · exact hdisj g (by simp [hg]) h'
      · exact hnd.1 (h' ▸ List.mem_map_of_mem labelsOf hg)
    show (publish (setGauge reg (labelsOf fi) 1) rest).length = _
    rw [this, setGauge_length_of_not_mem hfi]
    simp
    omega

/-- Counterexample to claim C8: two identical records (possible, since the
upstream API does not guarantee distinct findings) collapse into a single
sample - `With(..).Set` is an upsert keyed by the label set - so the sample
count is 1, not the record count 2. -/
theorem claim_C8_cex :
    ((snapshot [] (.ok [⟨"CVE-1", "HIGH", "", "1.2", "", ""⟩,
                        ⟨"CVE-1", "HIGH", "", "1.2", "", ""⟩])).1).length ≠
      ([⟨"CVE-1", "HIGH", "", "1.2", "", ""⟩,
        ⟨"CVE-1", "HIGH", "", "1.2", "", ""⟩] : List findingsInfo).length := by
  decide

/-- Claim C8 as amended: after a successful cycle the registry is in 1:1
correspondence with the *distinct label sets* of that cycle's records: no
two samples share a label set, every sample's gauge value is exactly 1, the
label sets present are exactly those derived from the records, and when the
records' label sets are pairwise distinct the sample count equals the record
count (records with identical label sets collapse into one sample). -/
theorem claim_C8_amended (prev : Registry) (recs : List findingsInfo) :
    ((((snapshot prev (.ok recs)).1).map Prod.fst).Nodup) ∧
    (∀ p ∈ (snapshot prev (.ok recs)).1, p.2 = 1) ∧
    (∀ l, l ∈ ((snapshot prev (.ok recs)).1).map Prod.fst ↔
      l ∈ recs.map labelsOf) ∧
    (((recs.map labelsOf).Nodup) →
      ((snapshot prev (.ok recs)).1).length = recs.length) := by
  have hsnap : (snapshot prev (.ok recs)).1 = publish [] recs := rfl
  refine ⟨?_, ?_, ?_, ?_⟩
  · rw [hsnap]
    exact publish_keys_nodup recs [] (by simp)
  · rw [hsnap]
    exact publish_values recs [] (by simp)
  · intro l
    rw [hsnap, publish_mem_keys]
    simp
  · intro hnd
    rw [hsnap, publish_length recs [] (by simp) hnd]
    simp

/-- Witness for the amended C8: two records with distinct label sets yield
two samples with distinct label sets, both of value 1. -/
theorem claim_C8_amended_witness :
    ((((snapshot [] (.ok [⟨"CVE-1", "HIGH", "", "1.2", "", ""⟩,
                          ⟨"CVE-2", "LOW", "", "", "", ""⟩])).1).map Prod.fst).Nodup) ∧
    ((snapshot [] (.ok [⟨"CVE-1", "HIGH", "", "1.2", "", ""⟩,
                        ⟨"CVE-2", "LOW", "", "", "", ""⟩])).1).length =
      ([⟨"CVE-1", "HIGH", "", "1.2", "", ""⟩,
        ⟨"CVE-2", "LOW", "", "", "", ""⟩] : List findingsInfo).length :=
  ⟨(claim_C8_amended [] _).1,
   (claim_C8_amended [] _).2.2.2 (by decide)⟩

end ECRExporter

namespace ECRExporter

/-! ## Claims C9 and C10: interval configuration -/

/-- A string accepted by `strconv.Atoi` is nonempty. -/
theorem goAtoi_ok_length {s : String} {n : Int} (h : goAtoi s = .ok n) :
    s.length ≠ 0 := by
  obtain ⟨cs⟩ := s
  cases cs with
  | nil => simp [goAtoi, String.toList] at h
  | cons c cs => simp [String.length]

/-- Claim C9: with the environment variable unset or empty the process
starts with interval 300; a string `strconv.Atoi` accepts starts the process
with the parsed integer; a nonempty string `strconv.Atoi` rejects is
`log.Fatal` at startup - the process does not start. -/
theorem claim_C9_interval :
    mainStartup "" = .started 300 ∧
    (∀ (s : String) (n : Int), goAtoi s = .ok n → mainStartup s = .started n) ∧
    (∀ (s e : String), s.length ≠ 0 → goAtoi s = .error e →
      mainStartup s = .fatal ("failed to read Datadog Config: " ++ e)) := by
  refine ⟨rfl, ?_, ?_⟩
  · intro s n h
    have hg : getInterval s = .ok n := by
      unfold getInterval
      rw [if_neg (goAtoi_ok_length h), h]
    simp [mainStartup, hg]
  · intro s e hlen h
    have hg : getInterval s = .error ("failed to read Datadog Config: " ++ e) := by
      unfold getInterval
      rw [if_neg hlen, h]
    simp [mainStartup, hg]

/-- Witness for C9: default, integer, and non-integer environment values. -/
theorem claim_C9_interval_witness :
    mainStartup "" = .started 300 ∧
    mainStartup "42" = .started 42 ∧
    mainStartup "abc" = .fatal ("failed to read Datadog Config: " ++
      "strconv.Atoi: parsing \"abc\": invalid syntax") :=
  ⟨claim_C9_interval.1,
   claim_C9_interval.2.1 "42" 42 (by decide),
   claim_C9_interval.2.2 "abc" "strconv.Atoi: parsing \"abc\": invalid syntax"
     (by decide) (by decide)⟩

/-- Claim C10: `getInterval` performs no range validation - every string
`strconv.Atoi` accepts, `"0"` and negative values included, is returned as
the interval with no error - and a non-positive interval only fails later,
when `time.NewTicker` is constructed with the non-positive duration
`interval * 10^9` nanoseconds (the bound on `n` keeps the nanosecond
product inside the 64-bit `time.Duration` range). -/
theorem claim_C10_no_range_check :
    (∀ (s : String) (n : Int), goAtoi s = .ok n → getInterval s = .ok n) ∧
    getInterval "0" = .ok 0 ∧
    getInterval "-5" = .ok (-5) ∧
    (∀ n : Int, -9223372036 ≤ n → n ≤ 0 →
      tickerStart n = .error "non-positive interval for NewTicker") := by
  refine ⟨?_, by decide, by decide, ?_⟩
  · intro s n h
    unfold getInterval
    rw [if_neg (goAtoi_ok_length h), h]
  · intro n h1 h2
    have hw : durationOf n ≤ 0 := by
      unfold durationOf wrap64
      have hle : n * 1000000000 ≤ 0 := by nlinarith
      have hlb : -(2 ^ 63) ≤ n * 1000000000 := by nlinarith
      have hmod : (n * 1000000000 + 2 ^ 63) % 2 ^ 64 = n * 1000000000 + 2 ^ 63 := by
        apply Int.emod_eq_of_lt <;> omega
      omega
    unfold tickerStart newTicker
    rw [if_pos hw]

/-- Witness for C10: the negative interval `-7` is accepted by
`getInterval` and later rejected by the ticker construction. -/
theorem claim_C10_no_range_check_witness :
    getInterval "-7" = .ok (-7) ∧
    tickerStart (-7) = .error "non-positive interval for NewTicker" :=
  ⟨claim_C10_no_range_check.1 "-7" (-7) (by decide),
   claim_C10_no_range_check.2.2.2 (-7) (by decide) (by decide)⟩

end ECRExporter
